import Mathlib

/-!
Shallow embedding of `src/lib/libnmea.c` (sentence classification and
dispatch): the type registry `type_map`, the classifier
`nmea_get_message_type`, and the dispatcher `nmea_parse_message`.

C strings are NUL-free `List Char` values.  The four decoders
(`parse_gga`, `parse_gsa`, `parse_gsv`, `parse_vtg`) are `extern` in the
source and their code is not part of this repository slice, so they are
abstract parameters of the dispatcher.  The heap of C buffers is modelled
explicitly (a partial map from addresses to buffer contents) so that frame
properties — the caller's buffer is untouched, the scratch copy is freed —
are real statements about the model rather than artifacts of purity.
-/

/-- Modelled from the spec (the header `libnmea.h` is not under `src/`): the
closed set of message-type tags `{GGA, GSA, GSV, VTG, Unknown}`, with the
constructor names used by the C source. -/
inductive nmea_message_type_t
  | kNMEAMessageGGA
  | kNMEAMessageGSA
  | kNMEAMessageGSV
  | kNMEAMessageVTG
  | kNMEAMessageUnknown
deriving DecidableEq, Repr

/-- Modelled from the spec (the header `libnmea.h` is not under `src/`): the
error codes.  The core defines `kNMEAErrorTypeNotUnderstood`; every other
code is decoder-private and opaque to the core, modelled by a `Nat` index. -/
inductive nmea_error_t
  | kNMEAErrorTypeNotUnderstood
  | decoderPrivate (code : Nat)
deriving DecidableEq, Repr

/-- Modelled from the spec (the header `libnmea.h` is not under `src/`): a
message record.  Every record variant shares the leading type-tag field
(the C code writes `parsed->type`); the variant-specific payload is opaque
to the dispatcher and collapsed to one opaque field. -/
structure nmea_message_t where
  type : nmea_message_type_t
  payload : Nat
deriving DecidableEq, Repr

/-- C `strncmp(a, b, n) == 0` on NUL-free strings: compare at most `n`
characters, stopping at the first difference or at the end of either
string (the implicit NUL terminator). -/
def cstrncmpEq : List Char → List Char → Nat → Bool
  | _, _, 0 => true
  | [], [], _ + 1 => true
  | [], _ :: _, _ + 1 => false
  | _ :: _, [], _ + 1 => false
  | a :: s, b :: t, n + 1 => a == b && cstrncmpEq s t n

/-- The registry from the source: `{"$GPGGA", GGA}, {"$GPGSA", GSA},
{"$GPGSV", GSV}, {"$GPVTF", VTG}`.  The C array's `{NULL, Unknown}`
sentinel is the end of the list (the scan's nil case). -/
def type_map : List (List Char × nmea_message_type_t) :=
  [("$GPGGA".data, .kNMEAMessageGGA),
   ("$GPGSA".data, .kNMEAMessageGSA),
   ("$GPGSV".data, .kNMEAMessageGSV),
   ("$GPVTF".data, .kNMEAMessageVTG)]

/-- The `do { ... } while(1)` scan of `nmea_get_message_type`: at the
sentinel return `Unknown`; on `!strncmp(message, type_map[i].nmea, 6)`
return that entry's tag; otherwise advance. -/
def lookupType (message : List Char) :
    List (List Char × nmea_message_type_t) → nmea_message_type_t
  | [] => .kNMEAMessageUnknown
  | (p, ty) :: rest =>
      if cstrncmpEq message p 6 then ty else lookupType message rest

/-- `nmea_get_message_type`: linear scan of `type_map` comparing the first
6 characters of the message. -/
def nmea_get_message_type (message : List Char) : nmea_message_type_t :=
  lookupType message type_map

/-- A heap of C buffers: addresses to contents; `none` means unallocated
(or freed). -/
def Heap : Type := Nat → Option (List Char)

/-- Pointwise heap update (a store through, or allocation/free of, one
buffer address). -/
def hupdate (h : Heap) (a : Nat) (v : Option (List Char)) : Heap :=
  fun x => if x = a then v else h x

/-- A decoder, e.g. `nmea_message_gga_t* parse_gga(char *msg,
nmea_error_t *outErr)`: it receives the contents of its scratch buffer and
the state of the error slot (`none` when the caller passed no slot), and
produces an optional record, the new slot state, and the (possibly
destructively tokenized) final contents of its scratch buffer.  The
decoder only reaches the scratch buffer it is handed, never the caller's
buffer. -/
def DecoderFn : Type :=
  List Char → Option nmea_error_t →
    Option nmea_message_t × Option nmea_error_t × List Char

/-- The four `extern` decoders of the source, abstract here. -/
structure Decoders where
  parse_gga : DecoderFn
  parse_gsa : DecoderFn
  parse_gsv : DecoderFn
  parse_vtg : DecoderFn

/-- How a call to `nmea_parse_message` ends: a normal `return parsed`
(carrying the returned pointer, `none` for NULL), or an abort from a
failed `assert`. -/
inductive CRet
  | normal (r : Option nmea_message_t)
  | assertFailure
deriving DecidableEq, Repr

/-- Observable final state of one `nmea_parse_message` call: the heap, how
control left the function, and the error slot's final state. -/
structure ParseFinal where
  heap : Heap
  ret : CRet
  errSlot : Option nmea_error_t

/-- The `switch(t)` of `nmea_parse_message`: a recognized tag routes the
scratch copy and the error slot to the matching decoder; the `default`
case does `if(outError) *outError = kNMEAErrorTypeNotUnderstood` and
produces no record, leaving the scratch copy untouched. -/
def dispatch (d : Decoders) (t : nmea_message_type_t) (copy : List Char)
    (slot : Option nmea_error_t) :
    Option nmea_message_t × Option nmea_error_t × List Char :=
  match t with
  | .kNMEAMessageGGA => d.parse_gga copy slot
  | .kNMEAMessageGSA => d.parse_gsa copy slot
  | .kNMEAMessageGSV => d.parse_gsv copy slot
  | .kNMEAMessageVTG => d.parse_vtg copy slot
  | .kNMEAMessageUnknown =>
      (none, slot.map fun _ => .kNMEAErrorTypeNotUnderstood, copy)

/-- `nmea_parse_message(message, outError)`, line by line.  `aMsg` is the
address of the caller's buffer, `aCopy` the fresh address `malloc`
returns for the scratch copy.  Steps: `strncpy` fills the scratch copy
with the message; `nmea_get_message_type` classifies the original buffer;
the `switch` dispatches (the decoder may rewrite the scratch buffer);
then `assert(parsed)` — if the decoder produced no record (or the type
was unknown) the process aborts here, before `free(copy)` is reached;
otherwise `free(copy)` releases the scratch buffer, `parsed->type = t`
stamps the tag, and the record is returned. -/
def nmea_parse_message (d : Decoders) (h : Heap) (aMsg aCopy : Nat)
    (slot : Option nmea_error_t) : ParseFinal :=
  let msg := (h aMsg).getD []
  let h1 := hupdate h aCopy (some msg)
  let t := nmea_get_message_type msg
  let r := dispatch d t msg slot
  let h2 := hupdate h1 aCopy (some r.2.2)
  match r.1 with
  | none =>
      { heap := h2, ret := .assertFailure, errSlot := r.2.1 }
  | some p =>
      { heap := hupdate h2 aCopy none,
        ret := .normal (some { p with type := t }),
        errSlot := r.2.1 }

/-- `strncmp(a, b, n) == 0` exactly when the length-`n` prefixes agree. -/
theorem cstrncmpEq_true_iff (a b : List Char) (n : Nat) :
    cstrncmpEq a b n = true ↔ a.take n = b.take n := by
  induction a generalizing b n with
  | nil =>
      cases n with
      | zero => simp [cstrncmpEq]
      | succ n =>
          cases b with
          | nil => simp [cstrncmpEq]
          | cons c t => simp [cstrncmpEq]
  | cons a s ih =>
      cases n with
      | zero => simp [cstrncmpEq]
      | succ n =>
          cases b with
          | nil => simp [cstrncmpEq]
          | cons c t =>
              simp [cstrncmpEq, List.take_succ_cons, ih,
                Bool.and_eq_true, beq_iff_eq]

/-- `strncmp` equality against a registry entry depends only on the first
`n` characters of the message. -/
theorem cstrncmpEq_eq_decide (a b : List Char) (n : Nat) :
    cstrncmpEq a b n = decide (a.take n = b.take n) := by
  by_cases hp : a.take n = b.take n
  · simp only [hp, decide_eq_true_eq, decide_True]
    exact (cstrncmpEq_true_iff a b n).mpr hp
  · simp only [hp, decide_False]
    rw [← Bool.not_eq_true, cstrncmpEq_true_iff]
    exact hp

/-- A one-buffer heap: the caller's message at address 0, everything else
unallocated (so `malloc` may return address 1). -/
def mkHeap (msg : List Char) : Heap :=
  fun a => if a = 0 then some msg else none

/-- A decoder that always succeeds with a fixed record; the record's tag
field holds an arbitrary value until the dispatcher stamps it. -/
def decodeOk : DecoderFn := fun buf slot =>
  (some { type := .kNMEAMessageUnknown, payload := 0 }, slot, buf)

/-- A decoder that always fails, writing the decoder-private code 7 into
the error slot and leaving its buffer unchanged. -/
def decodeFail : DecoderFn := fun buf _ =>
  (none, some (.decoderPrivate 7), buf)

/-- All four decoders succeed. -/
def dOk : Decoders := ⟨decodeOk, decodeOk, decodeOk, decodeOk⟩

/-- All four decoders fail. -/
def dFail : Decoders := ⟨decodeFail, decodeFail, decodeFail, decodeFail⟩

/-- C5: for every prefix registered in the type registry and every sentence
whose first 6 characters equal that prefix exactly, `nmea_get_message_type`
returns that entry's tag, regardless of the rest of the sentence. -/
theorem c5_registry_hit (p : List Char) (ty : nmea_message_type_t)
    (hmem : (p, ty) ∈ type_map) (msg : List Char) (hmsg : msg.take 6 = p) :
    nmea_get_message_type msg = ty := by
  simp only [type_map, List.mem_cons, List.not_mem_nil, or_false,
    Prod.mk.injEq] at hmem
  rcases hmem with ⟨hp, hty⟩ | ⟨hp, hty⟩ | ⟨hp, hty⟩ | ⟨hp, hty⟩ <;>
    subst hp <;> subst hty <;>
    simp [nmea_get_message_type, type_map, lookupType,
      cstrncmpEq_eq_decide, hmsg]

/-- C5 witness: a concrete GSA sentence classifies as GSA. -/
theorem c5_registry_hit_witness :
    ("$GPGSA".data, nmea_message_type_t.kNMEAMessageGSA) ∈ type_map ∧
    ("$GPGSA,A,3".data).take 6 = "$GPGSA".data ∧
    nmea_get_message_type "$GPGSA,A,3".data = .kNMEAMessageGSA :=
  ⟨by decide, by decide,
    c5_registry_hit "$GPGSA".data .kNMEAMessageGSA (by decide)
      "$GPGSA,A,3".data (by decide)⟩

/-- C6: a sentence whose first 6 characters match no registered prefix
classifies as `Unknown` (the sentinel ends the scan). -/
theorem c6_no_match_unknown (msg : List Char)
    (hn : ∀ p ty, (p, ty) ∈ type_map → msg.take 6 ≠ p) :
    nmea_get_message_type msg = .kNMEAMessageUnknown := by
  have h1 := hn "$GPGGA".data .kNMEAMessageGGA (by decide)
  have h2 := hn "$GPGSA".data .kNMEAMessageGSA (by decide)
  have h3 := hn "$GPGSV".data .kNMEAMessageGSV (by decide)
  have h4 := hn "$GPVTF".data .kNMEAMessageVTG (by decide)
  simp [nmea_get_message_type, type_map, lookupType,
    cstrncmpEq_eq_decide, h1, h2, h3, h4]

/-- C6 witness: `"$GPXYZ,1"` matches no registry entry and classifies as
`Unknown`. -/
theorem c6_no_match_unknown_witness :
    (∀ p ty, (p, ty) ∈ type_map → ("$GPXYZ,1".data).take 6 ≠ p) ∧
    nmea_get_message_type "$GPXYZ,1".data = .kNMEAMessageUnknown := by
  have hn : ∀ p ty, (p, ty) ∈ type_map → ("$GPXYZ,1".data).take 6 ≠ p := by
    intro p ty hmem
    simp only [type_map, List.mem_cons, List.not_mem_nil, or_false,
      Prod.mk.injEq] at hmem
    rcases hmem with ⟨hp, -⟩ | ⟨hp, -⟩ | ⟨hp, -⟩ | ⟨hp, -⟩ <;>
      subst hp <;> decide
  exact ⟨hn, c6_no_match_unknown "$GPXYZ,1".data hn⟩

/-- C3: a sentence with the conventional VTG identifier `"$GPVTG"` in its
first 6 characters classifies as `Unknown`, and the registry's VTG entry
indeed registers `"$GPVTF"` (final-letter discrepancy). -/
theorem c3_gpvtg_unknown :
    (∀ msg : List Char, msg.take 6 = "$GPVTG".data →
      nmea_get_message_type msg = .kNMEAMessageUnknown) ∧
    ("$GPVTF".data, nmea_message_type_t.kNMEAMessageVTG) ∈ type_map := by
  refine ⟨fun msg hmsg => ?_, by decide⟩
  simp [nmea_get_message_type, type_map, lookupType,
    cstrncmpEq_eq_decide, hmsg]

/-- C3 witness: a concrete conventional VTG sentence classifies as
`Unknown`. -/
theorem c3_gpvtg_unknown_witness :
    ("$GPVTG,054.7,T".data).take 6 = "$GPVTG".data ∧
    nmea_get_message_type "$GPVTG,054.7,T".data = .kNMEAMessageUnknown :=
  ⟨by decide, c3_gpvtg_unknown.1 "$GPVTG,054.7,T".data (by decide)⟩

/-- C1 (code bug evaluation): on a sentence whose first 6 characters match
no registered prefix, `nmea_parse_message` writes `TypeNotUnderstood` into
a caller-supplied error slot and invokes no decoder (the result does not
depend on the decoders), but it does not return NULL as its documentation
states: `assert(parsed)` fails and the call aborts. -/
theorem c1_unknown_type_aborts (d : Decoders) :
    (nmea_parse_message d (mkHeap "$GPXYZ,1".data) 0 1
        (some (.decoderPrivate 0))).errSlot
      = some .kNMEAErrorTypeNotUnderstood ∧
    (nmea_parse_message d (mkHeap "$GPXYZ,1".data) 0 1
        (some (.decoderPrivate 0))).ret = .assertFailure :=
  ⟨rfl, rfl⟩

/-- C2 (code bug evaluation): on a recognized GGA sentence whose decoder
reports failure (no record, decoder-specific code written to the slot),
`nmea_parse_message` leaves the decoder's code in the slot but aborts at
`assert(parsed)` instead of returning NULL. -/
theorem c2_decoder_failure_aborts (d : Decoders) (e : nmea_error_t)
    (buf : List Char)
    (hd : d.parse_gga "$GPGGA,x".data (some (.decoderPrivate 0))
        = (none, some e, buf)) :
    (nmea_parse_message d (mkHeap "$GPGGA,x".data) 0 1
        (some (.decoderPrivate 0))).ret = .assertFailure ∧
    (nmea_parse_message d (mkHeap "$GPGGA,x".data) 0 1
        (some (.decoderPrivate 0))).errSlot = some e := by
  have hmsg : ((mkHeap "$GPGGA,x".data) 0).getD [] = "$GPGGA,x".data := rfl
  have ht : nmea_get_message_type "$GPGGA,x".data = .kNMEAMessageGGA := by
    decide
  simp only [nmea_parse_message, hmsg, ht, dispatch, hd]
  exact ⟨trivial, trivial⟩

/-- C2 witness: the always-failing decoder triggers the abort. -/
theorem c2_decoder_failure_aborts_witness :
    dFail.parse_gga "$GPGGA,x".data (some (.decoderPrivate 0))
      = (none, some (.decoderPrivate 7), "$GPGGA,x".data) ∧
    (nmea_parse_message dFail (mkHeap "$GPGGA,x".data) 0 1
        (some (.decoderPrivate 0))).ret = .assertFailure ∧
    (nmea_parse_message dFail (mkHeap "$GPGGA,x".data) 0 1
        (some (.decoderPrivate 0))).errSlot = some (.decoderPrivate 7) :=
  ⟨rfl, c2_decoder_failure_aborts dFail (.decoderPrivate 7)
    "$GPGGA,x".data rfl⟩

/-- C4: whatever the decoders do, if `nmea_parse_message` returns a record,
that record's `type` field equals the tag `nmea_get_message_type`
independently computes on the caller's sentence. -/
theorem c4_tag_consistency (d : Decoders) (h : Heap) (aMsg aCopy : Nat)
    (slot : Option nmea_error_t) (msg : List Char) (m : nmea_message_t)
    (hm : h aMsg = some msg)
    (hr : (nmea_parse_message d h aMsg aCopy slot).ret
        = .normal (some m)) :
    m.type = nmea_get_message_type msg := by
  have hmsg : (h aMsg).getD [] = msg := by rw [hm]; rfl
  simp only [nmea_parse_message, hmsg] at hr
  rcases hp : (dispatch d (nmea_get_message_type msg) msg slot).1
      with _ | p
  · simp only [hp] at hr
    cases hr
  · simp only [hp, CRet.normal.injEq, Option.some.injEq] at hr
    rw [← hr]

/-- C4 witness: with an always-succeeding decoder on a GGA sentence, the
returned record's tag equals the independently computed classification. -/
theorem c4_tag_consistency_witness :
    (mkHeap "$GPGGA,1".data) 0 = some "$GPGGA,1".data ∧
    (nmea_parse_message dOk (mkHeap "$GPGGA,1".data) 0 1 none).ret
      = .normal (some ⟨.kNMEAMessageGGA, 0⟩) ∧
    (⟨.kNMEAMessageGGA, 0⟩ : nmea_message_t).type
      = nmea_get_message_type "$GPGGA,1".data :=
  ⟨rfl, rfl,
    c4_tag_consistency dOk (mkHeap "$GPGGA,1".data) 0 1 none
      "$GPGGA,1".data ⟨.kNMEAMessageGGA, 0⟩ rfl rfl⟩

/-- C7: whatever the decoders do, a record returned by
`nmea_parse_message` never carries the `Unknown` tag: the unknown-type
path produces no record (it aborts) before any record could be built. -/
theorem c7_no_unknown_record (d : Decoders) (h : Heap) (aMsg aCopy : Nat)
    (slot : Option nmea_error_t) (m : nmea_message_t)
    (hr : (nmea_parse_message d h aMsg aCopy slot).ret
        = .normal (some m)) :
    m.type ≠ .kNMEAMessageUnknown := by
  simp only [nmea_parse_message] at hr
  rcases hp : (dispatch d (nmea_get_message_type ((h aMsg).getD []))
      ((h aMsg).getD []) slot).1 with _ | p
  · simp only [hp] at hr
    cases hr
  · simp only [hp, CRet.normal.injEq, Option.some.injEq] at hr
    rcases ht : nmea_get_message_type ((h aMsg).getD []) with _ | _ | _ | _ | _
    · rw [ht] at hr
      rw [← hr]
      simp
    · rw [ht] at hr
      rw [← hr]
      simp
    · rw [ht] at hr
      rw [← hr]
      simp
    · rw [ht] at hr
      rw [← hr]
      simp
    · rw [ht] at hp
      simp only [dispatch] at hp
      cases hp

/-- C7 witness: a returned GSA record's tag is not `Unknown`. -/
theorem c7_no_unknown_record_witness :
    (nmea_parse_message dOk (mkHeap "$GPGSA,A,3".data) 0 1 none).ret
      = .normal (some ⟨.kNMEAMessageGSA, 0⟩) ∧
    (⟨.kNMEAMessageGSA, 0⟩ : nmea_message_t).type
      ≠ .kNMEAMessageUnknown :=
  ⟨rfl,
    c7_no_unknown_record dOk (mkHeap "$GPGSA,A,3".data) 0 1 none
      ⟨.kNMEAMessageGSA, 0⟩ rfl⟩

/-- C8: whatever the decoders do with their scratch copy, a call to
`nmea_parse_message` leaves the caller's buffer exactly as it was: with
the caller's buffer allocated at `aMsg` and `malloc` returning a fresh
address `aCopy`, the final heap agrees with the initial heap at `aMsg`
(only the scratch address is ever written or freed). -/
theorem c8_caller_buffer_preserved (d : Decoders) (h : Heap)
    (aMsg aCopy : Nat) (slot : Option nmea_error_t)
    (hMsg : (h aMsg).isSome = true) (hFresh : h aCopy = none) :
    (nmea_parse_message d h aMsg aCopy slot).heap aMsg = h aMsg := by
  have hne : aMsg ≠ aCopy := by
    intro he
    rw [he, hFresh] at hMsg
    cases hMsg
  simp only [nmea_parse_message]
  rcases hp : (dispatch d (nmea_get_message_type ((h aMsg).getD []))
      ((h aMsg).getD []) slot).1 with _ | p <;>
    simp [hp, hupdate, hne]

/-- C8 witness: concrete call with a succeeding decoder leaves the message
buffer at address 0 intact. -/
theorem c8_caller_buffer_preserved_witness :
    ((mkHeap "$GPGSV,3,1".data) 0).isSome = true ∧
    (mkHeap "$GPGSV,3,1".data) 1 = none ∧
    (nmea_parse_message dOk (mkHeap "$GPGSV,3,1".data) 0 1 none).heap 0
      = (mkHeap "$GPGSV,3,1".data) 0 :=
  ⟨rfl, rfl,
    c8_caller_buffer_preserved dOk (mkHeap "$GPGSV,3,1".data) 0 1 none
      rfl rfl⟩

/-- C9 (code bug evaluation): on an unrecognized sentence the scratch copy
is NOT released — whatever the decoders are, the call aborts at
`assert(parsed)` while the scratch buffer at `aCopy` is still allocated,
because `free(copy)` sits after the assert and is only reached on the
success path. -/
theorem c9_scratch_not_freed_on_abort (d : Decoders) :
    (nmea_parse_message d (mkHeap "$GPXYZ,1".data) 0 1 none).ret
      = .assertFailure ∧
    (nmea_parse_message d (mkHeap "$GPXYZ,1".data) 0 1 none).heap 1
      = some "$GPXYZ,1".data :=
  ⟨rfl, rfl⟩

/-- C10: `assert(parsed)` guards the return: a normal return of
`nmea_parse_message` always carries a non-null record (so
`parsed->type = t` never dereferences NULL on a normal return), and
whenever the routing step produces no record — including the
unknown-type path, where the error slot has already been written — the
call ends in an assert abort rather than returning NULL. -/
theorem c10_assert_guards_return (d : Decoders) (h : Heap)
    (aMsg aCopy : Nat) (slot : Option nmea_error_t) (msg : List Char)
    (hm : h aMsg = some msg) :
    (∀ r, (nmea_parse_message d h aMsg aCopy slot).ret = .normal r →
      r.isSome = true) ∧
    ((dispatch d (nmea_get_message_type msg) msg slot).1 = none →
      (nmea_parse_message d h aMsg aCopy slot).ret = .assertFailure) := by
  have hmsg : (h aMsg).getD [] = msg := by rw [hm]; rfl
  constructor
  · intro r hr
    simp only [nmea_parse_message, hmsg] at hr
    rcases hp : (dispatch d (nmea_get_message_type msg) msg slot).1
        with _ | p
    · simp only [hp] at hr
      cases hr
    · simp only [hp, CRet.normal.injEq] at hr
      rw [← hr]
      rfl
  · intro hnone
    simp only [nmea_parse_message, hmsg, hnone]

/-- C10 witness: on an unrecognized sentence the routing step yields no
record and the call ends in the assert abort. -/
theorem c10_assert_guards_return_witness :
    (mkHeap "$GPXYZ,9".data) 0 = some "$GPXYZ,9".data ∧
    ((∀ r, (nmea_parse_message dOk (mkHeap "$GPXYZ,9".data) 0 1
        none).ret = .normal r → r.isSome = true) ∧
     ((dispatch dOk (nmea_get_message_type "$GPXYZ,9".data)
        "$GPXYZ,9".data none).1 = none →
      (nmea_parse_message dOk (mkHeap "$GPXYZ,9".data) 0 1 none).ret
        = .assertFailure)) :=
  ⟨rfl,
    c10_assert_guards_return dOk (mkHeap "$GPXYZ,9".data) 0 1 none
      "$GPXYZ,9".data rfl⟩
